import Mathlib

/-!
# Verification of the refscan reference-resolution and violation-detection engine

This file gives a shallow embedding, in Lean, of the core of the `refscan`
repository: the `Finder` identifier-resolution engine with its two caches
(`refscan/lib/Finder.py`), the `Violation` record and its TSV dump
(`refscan/lib/Violation.py`, `refscan/lib/ViolationList.py`), and the scan
engine (`refscan/scanner.py` together with the legacy inline scan in
`refscan/refscan.py`).  Python dictionaries are modelled as association lists,
the MongoDB document store as a mapping from collection names to lists of
documents, and Python exceptions as `Except` results.

The repository file `refscan/lib/ReferenceList.py` is not present in the
source tree; its query surface is modelled from the specification (marked
`Modelled from the spec:` below).  Everything else is translated directly
from the Python source.
-/

namespace Refscan

/-- A Python value as it appears in scanned documents and in `Violation`
fields: `None`, a string, or a list of strings (reference fields hold a
single identifier or a list of identifiers). -/
inductive PyVal where
  | none
  | str (s : String)
  | list (ss : List String)
deriving DecidableEq, Repr

/-- A MongoDB document: a Python dict from field names to values. -/
abbrev Doc := List (String × PyVal)

/-- First-occurrence lookup in an association list (Python `d[k]` / `k in d`). -/
def lookupKey {α : Type} : List (String × α) → String → Option α
  | [], _ => Option.none
  | (k, v) :: rest, key => if k = key then Option.some v else lookupKey rest key

/-- Python dict assignment `d[k] = v`: update the existing key in place,
or append the key at the end (insertion order). -/
def setKey {α : Type} : List (String × α) → String → α → List (String × α)
  | [], key, v => [(key, v)]
  | (k, w) :: rest, key, v =>
      if k = key then (key, v) :: rest else (k, w) :: setKey rest key v

/-- The document store: a mapping from collection names to the documents
residing in each collection. -/
abbrev Db := List (String × List Doc)

/-- The documents of a collection.  In MongoDB a collection that was never
written to behaves exactly like an empty collection. -/
def getCollectionDocs (db : Db) (collection_name : String) : List Doc :=
  (lookupKey db collection_name).getD []

/-- MongoDB equality-filter semantics for one field: the filter value matches
a scalar field by equality and an array field by membership (absent fields
match nothing for a string-valued filter). -/
def fieldMatchesValue : Option PyVal → String → Bool
  | Option.some (PyVal.str s), v => s == v
  | Option.some (PyVal.list ss), v => ss.contains v
  | _, _ => false

/-- `collection.find_one({"id": document_id}) is not None`: whether some
document of the collection matches the filter `{"id": document_id}`
(`Finder.check_whether_document_having_id_exists_among_collections`,
`Finder.py` lines 144 and 167-168). -/
def findOneHasId (db : Db) (collection_name : String) (document_id : String) : Bool :=
  (getCollectionDocs db collection_name).any
    (fun d => fieldMatchesValue (lookupKey d "id") document_id)

/-- The mutable state of a `Finder` (`Finder.py` lines 13-52): the bounded
recency queue of collection names (front = most recently found in), its
capacity, and the nested presence/absence cache keyed by collection name and
then by document id. -/
structure Finder where
  cached_collection_names_where_recently_found : List String
  cache_size : Nat
  cached_id_presence_by_collection : List (String × List (String × Bool))
deriving DecidableEq, Repr

/-- `Finder.__init__`: empty queue, capacity 2, empty presence cache. -/
def Finder.init : Finder :=
  { cached_collection_names_where_recently_found := []
    cache_size := 2
    cached_id_presence_by_collection := [] }

/-- `Finder._set_name_of_collection_most_recently_found_in` (`Finder.py`
lines 54-78): if the collection name is not already at the front of the
queue, remove it from wherever it is in the queue (`list.remove` removes the
first occurrence; removing an absent element is modelled by `List.erase`,
which is the identity in that case because the Python code guards the removal
with a membership test) and prepend it, keeping at most `cache_size` entries. -/
def setNameOfCollectionMostRecentlyFoundIn (f : Finder) (collection_name : String) : Finder :=
  let queue := f.cached_collection_names_where_recently_found
  if queue.head? = Option.some collection_name then f
  else
    { f with cached_collection_names_where_recently_found :=
        collection_name :: (queue.erase collection_name).take (f.cache_size - 1) }

/-- `Finder._optimize_collection_search_order` (`Finder.py` lines 80-96):
walk the recency queue from oldest (back) to newest (front); each queue
member that occurs among the eligible collections is removed from the working
list and reinserted at the front (`list.remove` + `list.insert(0, _)`). -/
def optimizeQueueOrder (queue : List String) (names_of_eligible_collections : List String) :
    List String :=
  queue.reverse.foldl
    (fun ordered_collection_names cached_collection_name =>
      if cached_collection_name ∈ names_of_eligible_collections then
        cached_collection_name :: ordered_collection_names.erase cached_collection_name
      else ordered_collection_names)
    names_of_eligible_collections

/-- The `Finder` method wrapper around `optimizeQueueOrder`. -/
def optimizeCollectionSearchOrder (f : Finder) (names_of_eligible_collections : List String) :
    List String :=
  optimizeQueueOrder f.cached_collection_names_where_recently_found
    names_of_eligible_collections

/-- `Finder._set_cached_id_presence_in_collection` (`Finder.py` lines
98-105): create the inner dict for the collection if absent, then set the
presence flag for the document id. -/
def setCachedIdPresenceInCollection (f : Finder) (collection_name : String)
    (document_id : String) (is_present : Bool) : Finder :=
  let outer := f.cached_id_presence_by_collection
  let inner := (lookupKey outer collection_name).getD []
  { f with cached_id_presence_by_collection :=
      setKey outer collection_name (setKey inner document_id is_present) }

/-- `Finder._get_cached_id_presence_in_collection` (`Finder.py` lines
107-118): the cached flag, if any, for the document id in the collection. -/
def getCachedIdPresenceInCollection (f : Finder) (collection_name : String)
    (document_id : String) : Option Bool :=
  match lookupKey f.cached_id_presence_by_collection collection_name with
  | Option.none => Option.none
  | Option.some inner => lookupKey inner document_id

/-- The search loop of
`Finder.check_whether_document_having_id_exists_among_collections`
(`Finder.py` lines 143-184), over the already-reordered collection names.
The `Nat` component counts the `find_one` store queries issued, so that
cache effectiveness is observable.  Cached `False` skips the collection;
cached `True` returns it (after promoting it in the recency queue); a cache
miss queries the store, records the outcome, and returns on a hit. -/
def checkAmongLoop (db : Db) (document_id : String) :
    Finder → List String → Nat → Option String × Finder × Nat
  | f, [], n => (Option.none, f, n)
  | f, collection_name :: rest, n =>
    match getCachedIdPresenceInCollection f collection_name document_id with
    | Option.some false => checkAmongLoop db document_id f rest n
    | Option.some true =>
        (Option.some collection_name,
         setNameOfCollectionMostRecentlyFoundIn f collection_name, n)
    | Option.none =>
        if findOneHasId db collection_name document_id then
          (Option.some collection_name,
           setNameOfCollectionMostRecentlyFoundIn
             (setCachedIdPresenceInCollection f collection_name document_id true)
             collection_name,
           n + 1)
        else
          checkAmongLoop db document_id
            (setCachedIdPresenceInCollection f collection_name document_id false) rest (n + 1)

/-- `Finder.check_whether_document_having_id_exists_among_collections`
(`Finder.py` lines 120-184): optimize the search order using the recency
queue, then run the search loop.  Returns the name of the first collection
found to contain the id (or `none`), the updated finder state, and the number
of store queries issued. -/
def checkWhetherDocumentHavingIdExistsAmongCollections (f : Finder) (db : Db)
    (document_id : String) (collection_names : List String) :
    Option String × Finder × Nat :=
  checkAmongLoop db document_id f (optimizeCollectionSearchOrder f collection_names) 0

/-- `Finder.find_documents_having_type_and_value_in_field` (`Finder.py` lines
186-229): one disjunctive query over the given (type value, field name)
pairs; a document matches when, for some pair, its `type` field matches the
type value and its named field contains the given value.  The result is
projected to the `_id`, `id` and `type` fields.  Each call issues exactly one
store query. -/
def findDocumentsHavingTypeAndValueInField (db : Db) (collection_name : String)
    (type_and_field_name_tuples : List (String × String)) (value : String) : List Doc :=
  ((getCollectionDocs db collection_name).filter
    (fun d => type_and_field_name_tuples.any
      (fun tf => fieldMatchesValue (lookupKey d "type") tf.1
                 && fieldMatchesValue (lookupKey d tf.2) value))).map
    (fun d => d.filter (fun kv => kv.1 = "_id" ∨ kv.1 = "id" ∨ kv.1 = "type"))

/-- A schema-permitted reference path (`refscan/lib/Reference.py`): five
structural fields, equality on all five. -/
structure Reference where
  source_collection_name : String
  source_class_name : String
  source_field_name : String
  target_collection_name : String
  target_class_name : String
deriving DecidableEq, Repr

/-- The reference catalog: an ordered collection of `Reference`. -/
abbrev ReferenceList := List Reference

/-- Remove duplicates keeping the first occurrence of each element
(Python `set`/dict-key deduplication in insertion order). -/
def dedupFirst : List String → List String
  | [] => []
  | x :: xs => x :: (dedupFirst xs).filter (fun y => y ≠ x)

/-- Modelled from the spec: `refscan/lib/ReferenceList.py` is absent from the
source tree.  Spec section 4.2, `sourceCollectionNames()`: the set of
distinct source collections of the catalog. -/
def getSourceCollectionNames (references : ReferenceList) : List String :=
  dedupFirst (references.map (fun r => r.source_collection_name))

/-- Modelled from the spec: `refscan/lib/ReferenceList.py` is absent from the
source tree.  Spec section 4.2, `sourceFieldNames(collection)`: the set of
field names within a collection that might hold references. -/
def getSourceFieldNamesOfSourceCollection (references : ReferenceList)
    (collection_name : String) : List String :=
  dedupFirst ((references.filter
    (fun r => r.source_collection_name = collection_name)).map
    (fun r => r.source_field_name))

/-- Modelled from the spec: `refscan/lib/ReferenceList.py` is absent from the
source tree.  Spec section 4.2, `targetCollectionNames(sourceClass,
sourceField)`: the set of collections legal as the destination for that
class and field combination; empty if the combination is unknown. -/
def getTargetCollectionNames (references : ReferenceList) (source_class_name : String)
    (source_field_name : String) : List String :=
  dedupFirst ((references.filter
    (fun r => r.source_class_name = source_class_name
              ∧ r.source_field_name = source_field_name)).map
    (fun r => r.target_collection_name))

/-- Modelled from the spec: `refscan/lib/ReferenceList.py` is absent from the
source tree.  Spec section 4.2, `referenceFieldNamesByClass()`: a mapping
from class name to the set of reference field names on that class. -/
def getReferenceFieldNamesBySourceClassName (references : ReferenceList) :
    List (String × List String) :=
  (dedupFirst (references.map (fun r => r.source_class_name))).map
    (fun class_name =>
      (class_name,
       dedupFirst ((references.filter
         (fun r => r.source_class_name = class_name)).map
         (fun r => r.source_field_name))))

/-- Modelled from the spec: `refscan/lib/ReferenceList.py` is absent from the
source tree.  Spec section 4.2, `byTargetClass(className)`: all references
whose target class is the given class. -/
def getByTargetClassName (references : ReferenceList) (class_name : String) : ReferenceList :=
  references.filter (fun r => r.target_class_name = class_name)

/-- Modelled from the spec: `refscan/lib/ReferenceList.py` is absent from the
source tree.  Spec section 4.2, `groupBySourceCollection()`: partition the
references by source collection name. -/
def groupBySourceCollectionName (references : ReferenceList) :
    List (String × ReferenceList) :=
  (dedupFirst (references.map (fun r => r.source_collection_name))).map
    (fun collection_name =>
      (collection_name,
       references.filter (fun r => r.source_collection_name = collection_name)))

/-- An abstract view of the schema-reflection service (spec section 6 treats
schema loading and introspection as an opaque external collaborator): the
classes of the schema with their declared `class_uri` type tags, and the
names of the `Database` slots the schema treats as collections (the result of
`get_collection_names_from_schema`, `helpers.py` lines 36-56, whose linkml
introspection is external). -/
structure SchemaView where
  all_classes : List (String × String)
  collection_slot_names : List String
deriving DecidableEq, Repr

/-- `translate_class_uri_into_schema_class_name` (`helpers.py` lines
96-113): the name of the first schema class whose `class_uri` equals the
given value, if any. -/
def translateClassUriIntoSchemaClassName (schema_view : SchemaView) (class_uri : String) :
    Option String :=
  (schema_view.all_classes.find? (fun kv => kv.2 == class_uri)).map (fun kv => kv.1)

/-- `translate_schema_class_name_into_class_uri` (`helpers.py` lines
116-129): the `class_uri` of the schema class having the given name. -/
def translateSchemaClassNameIntoClassUri (schema_view : SchemaView)
    (schema_class_name : String) : Option String :=
  lookupKey schema_view.all_classes schema_class_name

/-- `derive_schema_class_name_from_document` (`helpers.py` lines 132-144):
if the document has a string-valued `type` field, translate that `class_uri`
into a class name; otherwise `None`. -/
def deriveSchemaClassNameFromDocument (schema_view : SchemaView) (document : Doc) :
    Option String :=
  match lookupKey document "type" with
  | Option.some (PyVal.str class_uri) =>
      translateClassUriIntoSchemaClassName schema_view class_uri
  | _ => Option.none

/-- `get_collection_names_from_schema` (`helpers.py` lines 36-56), abstracted
through `SchemaView.collection_slot_names` (see `SchemaView`). -/
def getCollectionNamesFromSchema (schema_view : SchemaView) : List String :=
  schema_view.collection_slot_names

/-- The field names of the `Violation` dataclass as declared in
`refscan/lib/Violation.py` lines 5-22, in declaration order.  The dataclass
declares exactly these six fields; `source_class_name` is not among them. -/
def violationFieldNames : List String :=
  ["source_collection_name", "source_field_name", "source_document_object_id",
   "source_document_id", "target_id", "name_of_collection_containing_target"]

/-- The `Violation` record (`refscan/lib/Violation.py`): one resolved-but-
failed reference.  Field values are Python values (`source_document_id` can
be `None` when the legacy scan stores a missing business identifier
unchanged, and `name_of_collection_containing_target` is `None` unless a
broadened search located the target). -/
structure Violation where
  source_collection_name : PyVal
  source_field_name : PyVal
  source_document_object_id : PyVal
  source_document_id : PyVal
  target_id : PyVal
  name_of_collection_containing_target : PyVal
deriving DecidableEq, Repr

/-- Python dataclass instantiation with keyword arguments: reject any keyword
that is not a declared field of `Violation` (a `TypeError` in Python), then
require every declared field to be supplied. -/
def violationInit (kwargs : List (String × PyVal)) : Except String Violation :=
  match kwargs.find? (fun kv => !(violationFieldNames.contains kv.1)) with
  | Option.some kv =>
      Except.error ("TypeError: unexpected keyword argument " ++ kv.1)
  | Option.none =>
    match lookupKey kwargs "source_collection_name",
          lookupKey kwargs "source_field_name",
          lookupKey kwargs "source_document_object_id",
          lookupKey kwargs "source_document_id",
          lookupKey kwargs "target_id",
          lookupKey kwargs "name_of_collection_containing_target" with
    | Option.some a, Option.some b, Option.some c, Option.some d,
      Option.some e, Option.some g =>
        Except.ok
          { source_collection_name := a
            source_field_name := b
            source_document_object_id := c
            source_document_id := d
            target_id := e
            name_of_collection_containing_target := g }
    | _, _, _, _, _, _ => Except.error "TypeError: missing required argument"

/-- `dataclasses.astuple` on a `Violation`: all six field values in
declaration order. -/
def astupleViolation (v : Violation) : List PyVal :=
  [v.source_collection_name, v.source_field_name, v.source_document_object_id,
   v.source_document_id, v.target_id, v.name_of_collection_containing_target]

/-- A single quote character, for Python `repr` of strings. -/
def pyQuote : String := String.singleton (Char.ofNat 39)

/-- Python `str()` of a list of strings, as the `csv` module would render a
list-valued cell. -/
def pyListRepr (ss : List String) : String :=
  "[" ++ String.intercalate ", " (ss.map (fun s => pyQuote ++ s ++ pyQuote)) ++ "]"

/-- How Python's `csv.writer` renders one cell: `None` is written as the
empty string, strings are written as-is, other values via `str()`. -/
def pyValToCell : PyVal → String
  | PyVal.none => ""
  | PyVal.str s => s
  | PyVal.list ss => pyListRepr ss

/-- `ViolationList.dump_to_tsv_file` (`refscan/lib/ViolationList.py` lines
15-28), modelled as the list of rows written: the header row is the list of
`Violation` field names, with `name_of_collection_containing_target` filtered
out when `include_name_of_collection_containing_target` is false; each data
row is `astuple(violation)` — the full six-value tuple, with no filtering
applied to data rows. -/
def dumpToTsvRows (violations : List Violation)
    (include_name_of_collection_containing_target : Bool) : List (List String) :=
  let column_names :=
    if include_name_of_collection_containing_target then violationFieldNames
    else violationFieldNames.filter
      (fun cn => cn ≠ "name_of_collection_containing_target")
  column_names :: violations.map (fun v => (astupleViolation v).map pyValToCell)

/-- An optional collection name as stored into a Python violation field:
`None` or the name. -/
def pyOfOption : Option String → PyVal
  | Option.none => PyVal.none
  | Option.some s => PyVal.str s

/-- Python `str()` of a value (used in f-string error messages). -/
def pyStr : PyVal → String
  | PyVal.none => "None"
  | PyVal.str s => s
  | PyVal.list ss => pyListRepr ss

/-- Target-value normalization (`scanner.py` lines 184-189, `refscan.py`
lines 338-344): a list value is used as-is, a scalar string becomes a
one-item list.  Our document value model restricts reference fields to
strings or lists of strings (spec section 4.4: a field holds a single
identifier or a list of identifiers), so a `None` value carries no
identifiers. -/
def normalizeTargetIds : PyVal → List String
  | PyVal.list ss => ss
  | PyVal.str s => [s]
  | PyVal.none => []

/-- `list(set(collection_names) - set(target_collection_names))`
(`scanner.py` line 202, `refscan.py` lines 355-357): the schema-described
collections that are not legal targets for the field.  Python's set
difference iterates in an unspecified order; we model it as first-occurrence
deduplication followed by a filter, which has the same membership. -/
def namesOfIneligibleCollections (collection_names target_collection_names : List String) :
    List String :=
  (dedupFirst collection_names).filter (fun c => c ∉ target_collection_names)

/-- One target id of one reference field of one document, as processed by
`scan_outgoing_references` (`scanner.py` lines 191-232): resolve against the
legal target collections; on failure optionally re-run the finder over the
ineligible collections, normalize a non-string source document id to the
empty string, and instantiate a `Violation` with the seven keyword arguments
written in the source (including `source_class_name`). -/
def processOutgoingTarget (finder : Finder) (db : Db)
    (collection_names target_collection_names : List String) (locate : Bool)
    (source_collection_name source_class_name field_name : String)
    (source_document_object_id source_document_id : PyVal) (target_id : String) :
    Except String (Option Violation) × Finder :=
  let r1 := checkWhetherDocumentHavingIdExistsAmongCollections finder db target_id
    target_collection_names
  match r1.1 with
  | Option.some _ => (Except.ok Option.none, r1.2.1)
  | Option.none =>
    let broadened :=
      if locate then
        let r2 := checkWhetherDocumentHavingIdExistsAmongCollections r1.2.1 db target_id
          (namesOfIneligibleCollections collection_names target_collection_names)
        (r2.1, r2.2.1)
      else (Option.none, r1.2.1)
    let normalized_source_document_id :=
      match source_document_id with
      | PyVal.str s => PyVal.str s
      | _ => PyVal.str ""
    match violationInit
      [("source_collection_name", PyVal.str source_collection_name),
       ("source_class_name", PyVal.str source_class_name),
       ("source_field_name", PyVal.str field_name),
       ("source_document_object_id", source_document_object_id),
       ("source_document_id", normalized_source_document_id),
       ("target_id", PyVal.str target_id),
       ("name_of_collection_containing_target", pyOfOption broadened.1)] with
    | Except.error e => (Except.error e, broadened.2)
    | Except.ok v => (Except.ok (Option.some v), broadened.2)

/-- The loop of `scan_outgoing_references` over the target ids of one field,
threading the finder state and propagating a raised `TypeError`. -/
def processOutgoingTargets (db : Db) (collection_names target_collection_names : List String)
    (locate : Bool) (source_collection_name source_class_name field_name : String)
    (source_document_object_id source_document_id : PyVal) :
    Finder → List String → Except String (List Violation × Finder)
  | f, [] => Except.ok ([], f)
  | f, target_id :: rest =>
    match processOutgoingTarget f db collection_names target_collection_names locate
      source_collection_name source_class_name field_name
      source_document_object_id source_document_id target_id with
    | (Except.error e, _) => Except.error e
    | (Except.ok Option.none, f2) =>
        processOutgoingTargets db collection_names target_collection_names locate
          source_collection_name source_class_name field_name
          source_document_object_id source_document_id f2 rest
    | (Except.ok (Option.some v), f2) =>
        match processOutgoingTargets db collection_names target_collection_names locate
          source_collection_name source_class_name field_name
          source_document_object_id source_document_id f2 rest with
        | Except.error e => Except.error e
        | Except.ok (vs, f3) => Except.ok (v :: vs, f3)

/-- The loop of `scan_outgoing_references` over the class's reference
fields (`scanner.py` lines 174-190): only fields present on the document are
checked; the legal target collections are looked up per class and field. -/
def processOutgoingFields (document : Doc) (references : ReferenceList) (db : Db)
    (collection_names : List String) (locate : Bool)
    (source_collection_name source_class_name : String)
    (source_document_object_id source_document_id : PyVal) :
    Finder → List String → Except String (List Violation × Finder)
  | f, [] => Except.ok ([], f)
  | f, field_name :: rest =>
    match lookupKey document field_name with
    | Option.none =>
        processOutgoingFields document references db collection_names locate
          source_collection_name source_class_name
          source_document_object_id source_document_id f rest
    | Option.some value =>
        let target_collection_names :=
          getTargetCollectionNames references source_class_name field_name
        match processOutgoingTargets db collection_names target_collection_names locate
          source_collection_name source_class_name field_name
          source_document_object_id source_document_id f (normalizeTargetIds value) with
        | Except.error e => Except.error e
        | Except.ok (vs, f2) =>
          match processOutgoingFields document references db collection_names locate
            source_collection_name source_class_name
            source_document_object_id source_document_id f2 rest with
          | Except.error e => Except.error e
          | Except.ok (ws, f3) => Except.ok (vs ++ ws, f3)

/-- `scan_outgoing_references` (`scanner.py` lines 126-234): read the
document's storage id and optional business id, derive its schema class from
its declared type (raising a `ValueError` when that fails), look up the
class's reference fields, and scan each target id of each present field.
Returns the violations found and the updated finder state, or the raised
error. -/
def scanOutgoingReferences (document : Doc) (schema_view : SchemaView)
    (references : ReferenceList) (finder : Finder) (db : Db)
    (source_collection_name : String) (user_wants_to_locate_misplaced_documents : Bool) :
    Except String (List Violation × Finder) :=
  match lookupKey document "_id" with
  | Option.none => Except.error "KeyError: _id"
  | Option.some source_document_object_id =>
    let source_document_id := (lookupKey document "id").getD PyVal.none
    match deriveSchemaClassNameFromDocument schema_view document with
    | Option.none =>
        Except.error
          ("ValueError: Failed to derive schema class name from document having id: "
           ++ pyStr source_document_id)
    | Option.some source_class_name =>
        let names_of_reference_fields :=
          (lookupKey (getReferenceFieldNamesBySourceClassName references)
            source_class_name).getD []
        let collection_names := getCollectionNamesFromSchema schema_view
        processOutgoingFields document references db collection_names
          user_wants_to_locate_misplaced_documents
          source_collection_name source_class_name
          source_document_object_id source_document_id finder names_of_reference_fields

/-- One target id as processed by the legacy inline scan loop of
`refscan.py` (lines 346-372): the same resolution and broadened-search logic
as `processOutgoingTarget`, but the `Violation` is instantiated with six
keyword arguments (no `source_class_name`) that match the six dataclass
fields exactly, and the raw source document id is stored without
normalization (so a missing business identifier is stored as `None`). -/
def refscanProcessTarget (finder : Finder) (db : Db)
    (collection_names target_collection_names : List String) (locate : Bool)
    (source_collection_name field_name : String)
    (source_document_object_id source_document_id : PyVal) (target_id : String) :
    Option Violation × Finder :=
  let r1 := checkWhetherDocumentHavingIdExistsAmongCollections finder db target_id
    target_collection_names
  match r1.1 with
  | Option.some _ => (Option.none, r1.2.1)
  | Option.none =>
    let broadened :=
      if locate then
        let r2 := checkWhetherDocumentHavingIdExistsAmongCollections r1.2.1 db target_id
          (namesOfIneligibleCollections collection_names target_collection_names)
        (r2.1, r2.2.1)
      else (Option.none, r1.2.1)
    (Option.some
      { source_collection_name := PyVal.str source_collection_name
        source_field_name := PyVal.str field_name
        source_document_object_id := source_document_object_id
        source_document_id := source_document_id
        target_id := PyVal.str target_id
        name_of_collection_containing_target := pyOfOption broadened.1 },
     broadened.2)

/-- The legacy loop of `refscan.py` over the target ids of one field. -/
def refscanProcessTargets (db : Db) (collection_names target_collection_names : List String)
    (locate : Bool) (source_collection_name field_name : String)
    (source_document_object_id source_document_id : PyVal) :
    Finder → List String → List Violation × Finder
  | f, [] => ([], f)
  | f, target_id :: rest =>
    match refscanProcessTarget f db collection_names target_collection_names locate
      source_collection_name field_name
      source_document_object_id source_document_id target_id with
    | (Option.none, f2) =>
        refscanProcessTargets db collection_names target_collection_names locate
          source_collection_name field_name
          source_document_object_id source_document_id f2 rest
    | (Option.some v, f2) =>
        let r := refscanProcessTargets db collection_names target_collection_names locate
          source_collection_name field_name
          source_document_object_id source_document_id f2 rest
        (v :: r.1, r.2)

/-- The legacy loop of `refscan.py` (lines 329-344) over the class's
reference fields. -/
def refscanProcessFields (document : Doc) (references : ReferenceList) (db : Db)
    (collection_names : List String) (locate : Bool)
    (source_collection_name source_class_name : String)
    (source_document_object_id source_document_id : PyVal) :
    Finder → List String → List Violation × Finder
  | f, [] => ([], f)
  | f, field_name :: rest =>
    match lookupKey document field_name with
    | Option.none =>
        refscanProcessFields document references db collection_names locate
          source_collection_name source_class_name
          source_document_object_id source_document_id f rest
    | Option.some value =>
        let target_collection_names :=
          getTargetCollectionNames references source_class_name field_name
        let r := refscanProcessTargets db collection_names target_collection_names locate
          source_collection_name field_name
          source_document_object_id source_document_id f (normalizeTargetIds value)
        let s := refscanProcessFields document references db collection_names locate
          source_collection_name source_class_name
          source_document_object_id source_document_id r.2 rest
        (r.1 ++ s.1, s.2)

/-- One document of the legacy inline scan loop of `refscan.py` (lines
316-378).  When the schema class cannot be derived from the document's
declared type, `source_class_name` is `None` and the dictionary lookup
`reference_field_names_by_source_class_name.get(source_class_name, [])`
yields the default empty list, so the document is silently skipped — no
error is raised (lines 322-326). -/
def refscanProcessDocument (document : Doc) (schema_view : SchemaView)
    (references : ReferenceList) (finder : Finder) (db : Db)
    (source_collection_name : String) (locate : Bool) :
    Except String (List Violation × Finder) :=
  match lookupKey document "_id" with
  | Option.none => Except.error "KeyError: _id"
  | Option.some source_document_object_id =>
    let source_document_id := (lookupKey document "id").getD PyVal.none
    match deriveSchemaClassNameFromDocument schema_view document with
    | Option.none => Except.ok ([], finder)
    | Option.some source_class_name =>
        let names_of_reference_fields :=
          (lookupKey (getReferenceFieldNamesBySourceClassName references)
            source_class_name).getD []
        let collection_names := getCollectionNamesFromSchema schema_view
        Except.ok (refscanProcessFields document references db collection_names locate
          source_collection_name source_class_name
          source_document_object_id source_document_id finder names_of_reference_fields)

/-- Lexicographic comparison of character sequences by Unicode code point,
as Python compares strings. -/
def charListLt : List Char → List Char → Bool
  | [], [] => false
  | [], _ :: _ => true
  | _ :: _, [] => false
  | c :: cs, d :: ds =>
    if c.toNat < d.toNat then true
    else if d.toNat < c.toNat then false
    else charListLt cs ds

/-- Python string comparison `a < b`. -/
def strLt (a b : String) : Bool := charListLt a.toList b.toList

/-- Insert a string into an already-sorted list (stable). -/
def insertSorted (s : String) : List String → List String
  | [] => [s]
  | x :: xs => if strLt x s then x :: insertSorted s xs else s :: x :: xs

/-- Python `sorted` on a list of strings. -/
def sortStrings (l : List String) : List String :=
  l.foldr insertSorted []

/-- `pymongo.database.Database.get_collection`: returns a `Collection`
handle for every name (handles are created lazily; a collection that does
not exist in the database behaves as an empty one).  It never returns
`None`.  We model the handle by the collection name. -/
def dbGetCollection (_db : Db) (collection_name : String) : Option String :=
  Option.some collection_name

/-- The per-collection document query of `scan` (`scanner.py` lines
299-318): select the documents having at least one of the collection's
reference-bearing fields (`$or` of `$exists` terms), projected to those
fields plus `id` and `type` when not already included (MongoDB always
includes `_id` in a positive projection). -/
def relevantDocumentsOfCollection (db : Db) (source_field_names : List String)
    (collection_name : String) : List Doc :=
  let additional_field_names_for_projection :=
    (if source_field_names.contains "id" then [] else ["id"])
    ++ (if source_field_names.contains "type" then [] else ["type"])
  let query_projection := source_field_names ++ additional_field_names_for_projection
  ((getCollectionDocs db collection_name).filter
    (fun d => source_field_names.any (fun fn => (lookupKey d fn).isSome))).map
    (fun d => d.filter (fun kv => kv.1 = "_id" ∨ query_projection.contains kv.1))

/-- The per-document loop of `scan` (`scanner.py` lines 337-348): run
`scan_outgoing_references` on each relevant document, accumulating the
violations and threading the finder; a raised error aborts the scan. -/
def scanDocumentsInCollection (schema_view : SchemaView) (references : ReferenceList)
    (db : Db) (source_collection_name : String) (locate : Bool) :
    Finder → List Doc → Except String (List Violation × Finder)
  | f, [] => Except.ok ([], f)
  | f, document :: rest =>
    match scanOutgoingReferences document schema_view references f db
      source_collection_name locate with
    | Except.error e => Except.error e
    | Except.ok (vs, f2) =>
      match scanDocumentsInCollection schema_view references db
        source_collection_name locate f2 rest with
      | Except.error e => Except.error e
      | Except.ok (ws, f3) => Except.ok (vs ++ ws, f3)

/-- The per-collection loop of `scan` (`scanner.py` lines 291-348):
caller-excluded collections are skipped before their violation-list entry is
created; every other collection gets an entry holding the violations of its
relevant documents. -/
def scanCollectionsLoop (schema_view : SchemaView) (references : ReferenceList) (db : Db)
    (names_of_source_collections_to_skip : List String) (locate : Bool) :
    Finder → List String → Except String (List (String × List Violation) × Finder)
  | f, [] => Except.ok ([], f)
  | f, source_collection_name :: rest =>
    if source_collection_name ∈ names_of_source_collections_to_skip then
      scanCollectionsLoop schema_view references db
        names_of_source_collections_to_skip locate f rest
    else
      let source_field_names :=
        getSourceFieldNamesOfSourceCollection references source_collection_name
      let documents := relevantDocumentsOfCollection db source_field_names
        source_collection_name
      match scanDocumentsInCollection schema_view references db
        source_collection_name locate f documents with
      | Except.error e => Except.error e
      | Except.ok (vl, f2) =>
        match scanCollectionsLoop schema_view references db
          names_of_source_collections_to_skip locate f2 rest with
        | Except.error e => Except.error e
        | Except.ok (entries, f3) =>
            Except.ok ((source_collection_name, vl) :: entries, f3)

/-- `scan` (`scanner.py` lines 237-369): create a fresh finder; keep every
declared source collection whose `get_collection` handle is not `None`
(warning about the others); then scan the kept collections in sorted order,
skipping caller-excluded ones.  Returns the per-collection violation lists
together with the list of "Database lacks collection" warnings printed. -/
def scan (db : Db) (schema_view : SchemaView) (references : ReferenceList)
    (names_of_source_collections_to_skip : List String) (locate : Bool) :
    Except String (List (String × List Violation) × List String) :=
  let finder := Finder.init
  let declared := getSourceCollectionNames references
  let source_collection_names_in_db :=
    declared.filter (fun n => (dbGetCollection db n).isSome)
  let warnings :=
    (declared.filter (fun n => (dbGetCollection db n).isNone)).map
      (fun n => "Database lacks collection: " ++ n)
  match scanCollectionsLoop schema_view references db
    names_of_source_collections_to_skip locate finder
    (sortStrings source_collection_names_in_db) with
  | Except.error e => Except.error e
  | Except.ok (entries, _) => Except.ok (entries, warnings)

/-- A descriptor of a referring document, as built by
`identify_referring_documents` (`scanner.py` lines 115-120). -/
structure ReferringDocumentDescriptor where
  source_collection_name : String
  source_class_name : Option String
  source_document_object_id : PyVal
  source_document_id : String
deriving DecidableEq, Repr

/-- The per-collection body of `identify_referring_documents` (`scanner.py`
lines 70-121): build the distinct (class_uri, field name) pairs of the
collection's potential references (raising when a class name cannot be
translated), issue one disjunctive store query, and turn each referring
document into a descriptor, normalizing a missing or non-string `id` to the
empty string.  The `Nat` counts store queries issued (one per collection). -/
def identifyReferringInCollections (schema_view : SchemaView) (db : Db)
    (document_id : String) :
    List (String × ReferenceList) → Except String (List ReferringDocumentDescriptor × Nat)
  | [] => Except.ok ([], 0)
  | (collection_name, potential_references_in_collection) :: rest =>
    let translated := potential_references_in_collection.map
      (fun r => (translateSchemaClassNameIntoClassUri schema_view r.source_class_name,
                 r.source_field_name, r.source_class_name))
    match translated.find? (fun t => t.1.isNone) with
    | Option.some t =>
        Except.error ("ValueError: Failed to translate schema class name "
          ++ t.2.2 ++ " into class_uri.")
    | Option.none =>
      let class_uri_and_field_name_tuples :=
        (translated.filterMap (fun t => t.1.map (fun uri => (uri, t.2.1)))).eraseDups
      let referring_documents := findDocumentsHavingTypeAndValueInField db collection_name
        class_uri_and_field_name_tuples document_id
      let descriptors := referring_documents.map (fun referring_document =>
        let source_document_id :=
          match lookupKey referring_document "id" with
          | Option.some (PyVal.str s) => s
          | _ => ""
        let source_class_name :=
          match lookupKey referring_document "type" with
          | Option.some (PyVal.str uri) =>
              translateClassUriIntoSchemaClassName schema_view uri
          | _ => Option.none
        { source_collection_name := collection_name
          source_class_name := source_class_name
          source_document_object_id := (lookupKey referring_document "_id").getD PyVal.none
          source_document_id := source_document_id })
      match identifyReferringInCollections schema_view db document_id rest with
      | Except.error e => Except.error e
      | Except.ok (ds, n) => Except.ok (descriptors ++ ds, n + 1)

/-- `identify_referring_documents` (`scanner.py` lines 22-123): a document
with no `id` field cannot be referenced, so the empty list is returned
immediately — before any schema-class derivation and before any store query.
Otherwise the schema class is derived (raising on failure) and the potential
references to that class are checked collection by collection.  The `Nat`
counts the store queries issued. -/
def identifyReferringDocuments (document : Doc) (schema_view : SchemaView)
    (references : ReferenceList) (db : Db) :
    Except String (List ReferringDocumentDescriptor × Nat) :=
  match lookupKey document "id" with
  | Option.none => Except.ok ([], 0)
  | Option.some document_id_value =>
    let document_id := pyStr document_id_value
    match deriveSchemaClassNameFromDocument schema_view document with
    | Option.none =>
        Except.error ("ValueError: Failed to identify schema class of document having id: "
          ++ document_id)
    | Option.some document_class_name =>
        let potential_references_to_document :=
          getByTargetClassName references document_class_name
        identifyReferringInCollections schema_view db document_id
          (groupBySourceCollectionName potential_references_to_document)

/-! ## Concrete fixtures

These mirror the schema and seeded database used by the repository's test
suite (`tests/test_scanner.py`, `tests/test_Finder.py`): classes `Company`,
`Employee` and `Testimonial` with type tags `refscan:Company` etc., stored in
`company_set`, `employee_set` and `testimonial_set`. -/

/-- The schema view of the test schema. -/
def testSchemaView : SchemaView :=
  { all_classes :=
      [("Company", "refscan:Company"), ("Employee", "refscan:Employee"),
       ("Testimonial", "refscan:Testimonial")]
    collection_slot_names := ["company_set", "employee_set", "testimonial_set"] }

/-- The reference catalog of the test schema: `Company.shareholders` points
at employees, `Employee.works_for` and `Testimonial.company` point at
companies. -/
def testReferences : ReferenceList :=
  [{ source_collection_name := "company_set", source_class_name := "Company",
     source_field_name := "shareholders", target_collection_name := "employee_set",
     target_class_name := "Employee" },
   { source_collection_name := "employee_set", source_class_name := "Employee",
     source_field_name := "works_for", target_collection_name := "company_set",
     target_class_name := "Company" },
   { source_collection_name := "testimonial_set", source_class_name := "Testimonial",
     source_field_name := "company", target_collection_name := "company_set",
     target_class_name := "Company" }]

/-- The seeded database of `tests/test_scanner.py`. -/
def testDb : Db :=
  [("company_set",
    [[("_id", PyVal.str "oc0"), ("id", PyVal.str "c-0"), ("type", PyVal.str "refscan:Company")],
     [("_id", PyVal.str "oc1"), ("id", PyVal.str "c-1"), ("type", PyVal.str "refscan:Company")],
     [("_id", PyVal.str "oc2"), ("id", PyVal.str "c-2"),
      ("shareholders", PyVal.list ["e-1", "e-3"]), ("type", PyVal.str "refscan:Company")]]),
   ("employee_set",
    [[("_id", PyVal.str "oe1"), ("id", PyVal.str "e-1"), ("works_for", PyVal.str "c-1"),
      ("type", PyVal.str "refscan:Employee")],
     [("_id", PyVal.str "oe2"), ("id", PyVal.str "e-2"), ("works_for", PyVal.str "c-2"),
      ("type", PyVal.str "refscan:Employee")],
     [("_id", PyVal.str "oe3"), ("id", PyVal.str "e-3"), ("works_for", PyVal.str "c-2"),
      ("type", PyVal.str "refscan:Employee")]]),
   ("testimonial_set",
    [[("_id", PyVal.str "ot1"), ("company", PyVal.str "c-2"),
      ("message", PyVal.str "Good company!"), ("type", PyVal.str "refscan:Testimonial")],
     [("_id", PyVal.str "ot2"), ("company", PyVal.str "c-2"),
      ("message", PyVal.str "Great company!"), ("type", PyVal.str "refscan:Testimonial")]])]

/-- A company document holding one intact reference (`e-1`) and one dangling
reference (`e-99`), as in case 4 of `test_scan_outgoing_references`. -/
def docCompanyBad : Doc :=
  [("_id", PyVal.str "x"), ("id", PyVal.str "c-99"),
   ("shareholders", PyVal.list ["e-1", "e-99"]), ("type", PyVal.str "refscan:Company")]

/-- A testimonial document lacking an `id` field whose `company` reference
(`c-99`) is dangling. -/
def docTestimonialBad : Doc :=
  [("_id", PyVal.str "t1"), ("company", PyVal.str "c-99"),
   ("type", PyVal.str "refscan:Testimonial")]

/-- The two-collection database of the spec's Finder correctness property:
`foo_set` holds `a`, `b`, `c` and `bar_set` holds `d`, `e`, `f`. -/
def fooBarDb : Db :=
  [("foo_set", [[("id", PyVal.str "a")], [("id", PyVal.str "b")], [("id", PyVal.str "c")]]),
   ("bar_set", [[("id", PyVal.str "d")], [("id", PyVal.str "e")], [("id", PyVal.str "f")]])]

/-- A catalog declaring `company_set` and `employee_set` as source
collections, for the absent-collection scenario. -/
def refsAbsent : ReferenceList :=
  [{ source_collection_name := "company_set", source_class_name := "Company",
     source_field_name := "shareholders", target_collection_name := "employee_set",
     target_class_name := "Employee" },
   { source_collection_name := "employee_set", source_class_name := "Employee",
     source_field_name := "works_for", target_collection_name := "company_set",
     target_class_name := "Company" }]

/-- A database that lacks the `company_set` collection entirely; its only
employee document carries no reference fields. -/
def dbAbsent : Db :=
  [("employee_set",
    [[("_id", PyVal.str "oe1"), ("id", PyVal.str "e-1"),
      ("type", PyVal.str "refscan:Employee")]])]

/-! ## Dictionary and queue lemmas -/

theorem lookupKey_setKey {α : Type} (m : List (String × α)) (k k' : String) (v : α) :
    lookupKey (setKey m k v) k' = if k = k' then Option.some v else lookupKey m k' := by
  induction m with
  | nil => simp [setKey, lookupKey]
  | cons kv rest ih =>
    obtain ⟨k0, v0⟩ := kv
    by_cases h0 : k0 = k
    · subst h0
      by_cases h : k0 = k' <;> simp [setKey, lookupKey, h]
    · by_cases h1 : k0 = k'
      · subst h1
        have h2 : ¬ k = k0 := fun hh => h0 hh.symm
        simp [setKey, lookupKey, h0, h2, ih]
      · by_cases h2 : k = k'
        · subst h2
          simp [setKey, lookupKey, h0, h1, ih]
        · simp [setKey, lookupKey, h0, h1, h2, ih]

theorem getCached_setCached (f : Finder) (c id : String) (b : Bool) (c' id' : String) :
    getCachedIdPresenceInCollection (setCachedIdPresenceInCollection f c id b) c' id'
      = if c = c' ∧ id = id' then Option.some b
        else getCachedIdPresenceInCollection f c' id' := by
  unfold getCachedIdPresenceInCollection setCachedIdPresenceInCollection
  simp only [lookupKey_setKey]
  by_cases hc : c = c'
  · subst hc
    simp only [if_pos rfl, true_and]
    by_cases hid : id = id'
    · subst hid
      simp [lookupKey_setKey]
    · simp only [if_neg hid]
      cases hcase : lookupKey f.cached_id_presence_by_collection c with
      | none => simp [lookupKey, hid]
      | some inner => simp [lookupKey_setKey, hid]
  · have hc2 : ¬ (c = c' ∧ id = id') := fun hh => hc hh.1
    simp [hc, hc2]

theorem setRecentlyFound_presence (f : Finder) (c : String) :
    (setNameOfCollectionMostRecentlyFoundIn f c).cached_id_presence_by_collection
      = f.cached_id_presence_by_collection := by
  unfold setNameOfCollectionMostRecentlyFoundIn
  by_cases h : f.cached_collection_names_where_recently_found.head? = Option.some c <;>
    simp [h]

theorem getCached_setRecentlyFound (f : Finder) (c c' id' : String) :
    getCachedIdPresenceInCollection (setNameOfCollectionMostRecentlyFoundIn f c) c' id'
      = getCachedIdPresenceInCollection f c' id' := by
  unfold getCachedIdPresenceInCollection
  rw [setRecentlyFound_presence]

theorem setRecentlyFound_head (f : Finder) (c : String) :
    (setNameOfCollectionMostRecentlyFoundIn f
      c).cached_collection_names_where_recently_found.head? = Option.some c := by
  unfold setNameOfCollectionMostRecentlyFoundIn
  by_cases h : f.cached_collection_names_where_recently_found.head? = Option.some c <;>
    simp [h]

theorem optimizeQueueOrder_foldl_perm (names : List String) (l : List String)
    (acc : List String) (h : acc.Perm names) :
    (l.foldl
      (fun ordered c => if c ∈ names then c :: ordered.erase c else ordered) acc).Perm
      names := by
  induction l generalizing acc with
  | nil => simpa using h
  | cons c rest ih =>
    simp only [List.foldl_cons]
    by_cases hc : c ∈ names
    · simp only [if_pos hc]
      apply ih
      have hc' : c ∈ acc := h.mem_iff.mpr hc
      exact ((List.perm_cons_erase hc').symm).trans h
    · simp only [if_neg hc]
      exact ih acc h

theorem optimizeQueueOrder_perm (queue names : List String) :
    (optimizeQueueOrder queue names).Perm names :=
  optimizeQueueOrder_foldl_perm names queue.reverse names (List.Perm.refl names)

theorem optimizeQueueOrder_cons (c : String) (rest names : List String) :
    optimizeQueueOrder (c :: rest) names
      = if c ∈ names then c :: (optimizeQueueOrder rest names).erase c
        else optimizeQueueOrder rest names := by
  unfold optimizeQueueOrder
  rw [List.reverse_cons, List.foldl_append]
  simp

theorem mem_names_of_mem_optimize {queue names : List String} {c : String}
    (h : c ∈ optimizeQueueOrder queue names) : c ∈ names :=
  (optimizeQueueOrder_perm queue names).mem_iff.mp h

/-! ## Search-loop lemmas -/

/-- The presence cache agrees with the store on the given document id. -/
def cacheSound (f : Finder) (db : Db) (document_id : String) : Prop :=
  ∀ c b, getCachedIdPresenceInCollection f c document_id = Option.some b →
    b = findOneHasId db c document_id

theorem cacheSound_of_empty (f : Finder) (db : Db) (document_id : String)
    (hp : f.cached_id_presence_by_collection = []) : cacheSound f db document_id := by
  intro c b h
  unfold getCachedIdPresenceInCollection at h
  rw [hp] at h
  simp [lookupKey] at h

theorem cacheSound_setCached {f : Finder} {db : Db} {document_id : String}
    (hs : cacheSound f db document_id) (c : String) :
    cacheSound (setCachedIdPresenceInCollection f c document_id
      (findOneHasId db c document_id)) db document_id := by
  intro c' b h
  rw [getCached_setCached] at h
  by_cases hc : c = c' ∧ document_id = document_id
  · rw [if_pos hc] at h
    obtain ⟨h1, _⟩ := hc
    subst h1
    exact (Option.some.injEq _ _).mp h.symm
  · rw [if_neg hc] at h
    exact hs c' b h

theorem checkAmongLoop_mem (db : Db) (document_id : String) (l : List String) :
    ∀ (f : Finder) (n : Nat) (c : String) (f' : Finder) (n' : Nat),
      checkAmongLoop db document_id f l n = (Option.some c, f', n') → c ∈ l := by
  induction l with
  | nil =>
    intro f n c f' n' h
    simp [checkAmongLoop] at h
  | cons c0 rest ih =>
    intro f n c f' n' h
    unfold checkAmongLoop at h
    cases hcache : getCachedIdPresenceInCollection f c0 document_id with
    | some b =>
      cases b
      · rw [hcache] at h
        simp only at h
        exact List.mem_cons_of_mem c0 (ih f n c f' n' h)
      · rw [hcache] at h
        simp only [Prod.mk.injEq, Option.some.injEq] at h
        rw [← h.1]
        exact List.mem_cons_self c0 rest
    | none =>
      rw [hcache] at h
      simp only at h
      by_cases hdb : findOneHasId db c0 document_id
      · rw [if_pos hdb] at h
        simp only [Prod.mk.injEq, Option.some.injEq] at h
        rw [← h.1]
        exact List.mem_cons_self c0 rest
      · rw [if_neg hdb] at h
        exact List.mem_cons_of_mem c0 (ih _ _ c f' n' h)

theorem checkAmongLoop_find (db : Db) (document_id : String) (l : List String) :
    ∀ (f : Finder) (n : Nat), cacheSound f db document_id →
      (checkAmongLoop db document_id f l n).1
        = l.find? (fun c => findOneHasId db c document_id) := by
  induction l with
  | nil =>
    intro f n _
    simp [checkAmongLoop]
  | cons c0 rest ih =>
    intro f n hs
    unfold checkAmongLoop
    cases hcache : getCachedIdPresenceInCollection f c0 document_id with
    | some b =>
      have hb := hs c0 b hcache
      cases b
      · simp only
        rw [List.find?_cons_of_neg _ (by simp [← hb])]
        exact ih f n hs
      · simp only
        rw [List.find?_cons_of_pos _ (by simp [← hb])]
    | none =>
      simp only
      by_cases hdb : findOneHasId db c0 document_id
      · rw [if_pos hdb, List.find?_cons_of_pos _ (by simp [hdb])]
      · rw [if_neg hdb, List.find?_cons_of_neg _ (by simp [hdb])]
        have hs2 := cacheSound_setCached hs c0
        rw [(by simp [hdb] : findOneHasId db c0 document_id = false)] at hs2
        exact ih _ _ hs2

theorem checkAmongLoop_found_state (db : Db) (document_id : String) (l : List String) :
    ∀ (f : Finder) (n : Nat) (c : String) (f' : Finder) (n' : Nat),
      checkAmongLoop db document_id f l n = (Option.some c, f', n') →
      getCachedIdPresenceInCollection f' c document_id = Option.some true ∧
      f'.cached_collection_names_where_recently_found.head? = Option.some c := by
  induction l with
  | nil =>
    intro f n c f' n' h
    simp [checkAmongLoop] at h
  | cons c0 rest ih =>
    intro f n c f' n' h
    unfold checkAmongLoop at h
    cases hcache : getCachedIdPresenceInCollection f c0 document_id with
    | some b =>
      cases b
      · rw [hcache] at h
        simp only at h
        exact ih f n c f' n' h
      · rw [hcache] at h
        simp only [Prod.mk.injEq, Option.some.injEq] at h
        obtain ⟨h1, h2, _⟩ := h
        subst h1
        subst h2
        constructor
        · rw [getCached_setRecentlyFound]
          exact hcache
        · exact setRecentlyFound_head _ _
    | none =>
      rw [hcache] at h
      simp only at h
      by_cases hdb : findOneHasId db c0 document_id
      · rw [if_pos hdb] at h
        simp only [Prod.mk.injEq, Option.some.injEq] at h
        obtain ⟨h1, h2, _⟩ := h
        subst h1
        subst h2
        constructor
        · rw [getCached_setRecentlyFound, getCached_setCached]
          simp
        · exact setRecentlyFound_head _ _
      · rw [if_neg hdb] at h
        exact ih _ _ c f' n' h

theorem checkAmongLoop_preserves_false (db : Db) (document_id : String) (l : List String) :
    ∀ (f : Finder) (n : Nat) (c : String),
      getCachedIdPresenceInCollection f c document_id = Option.some false →
      getCachedIdPresenceInCollection (checkAmongLoop db document_id f l n).2.1 c
        document_id = Option.some false := by
  induction l with
  | nil =>
    intro f n c hf
    simpa [checkAmongLoop] using hf
  | cons c0 rest ih =>
    intro f n c hf
    unfold checkAmongLoop
    cases hcache : getCachedIdPresenceInCollection f c0 document_id with
    | some b =>
      cases b
      · simp only
        exact ih f n c hf
      · simp only
        rw [getCached_setRecentlyFound]
        exact hf
    | none =>
      simp only
      by_cases hdb : findOneHasId db c0 document_id
      · rw [if_pos hdb]
        simp only
        rw [getCached_setRecentlyFound, getCached_setCached]
        have hne : ¬ (c0 = c ∧ document_id = document_id) := by
          intro hh
          rw [hh.1] at hcache
          rw [hf] at hcache
          exact Option.noConfusion hcache
        rw [if_neg hne]
        exact hf
      · rw [if_neg hdb]
        apply ih
        rw [getCached_setCached]
        by_cases hc : c0 = c ∧ document_id = document_id
        · rw [if_pos hc]
        · rw [if_neg hc]
          exact hf

theorem checkAmongLoop_none_all_false (db : Db) (document_id : String) (l : List String) :
    ∀ (f : Finder) (n : Nat) (f' : Finder) (n' : Nat),
      checkAmongLoop db document_id f l n = (Option.none, f', n') →
      ∀ c ∈ l, getCachedIdPresenceInCollection f' c document_id = Option.some false := by
  induction l with
  | nil =>
    intro f n f' n' _ c hc
    exact absurd hc (List.not_mem_nil c)
  | cons c0 rest ih =>
    intro f n f' n' h c hc
    unfold checkAmongLoop at h
    cases hcache : getCachedIdPresenceInCollection f c0 document_id with
    | some b =>
      cases b
      · rw [hcache] at h
        simp only at h
        rcases List.mem_cons.mp hc with hc1 | hc2
        · subst hc1
          have := checkAmongLoop_preserves_false db document_id rest f n c hcache
          rw [h] at this
          exact this
        · exact ih f n f' n' h c hc2
      · rw [hcache] at h
        simp at h
    | none =>
      rw [hcache] at h
      simp only at h
      by_cases hdb : findOneHasId db c0 document_id
      · rw [if_pos hdb] at h
        simp at h
      · rw [if_neg hdb] at h
        rcases List.mem_cons.mp hc with hc1 | hc2
        · subst hc1
          have hset : getCachedIdPresenceInCollection
              (setCachedIdPresenceInCollection f c document_id false) c document_id
              = Option.some false := by
            rw [getCached_setCached]
            simp
          have := checkAmongLoop_preserves_false db document_id rest _ (n + 1) c hset
          rw [h] at this
          exact this
        · exact ih _ _ f' n' h c hc2

theorem checkAmongLoop_all_false (db : Db) (document_id : String) (l : List String) :
    ∀ (f : Finder) (n : Nat),
      (∀ c ∈ l, getCachedIdPresenceInCollection f c document_id = Option.some false) →
      checkAmongLoop db document_id f l n = (Option.none, f, n) := by
  induction l with
  | nil =>
    intro f n _
    rfl
  | cons c0 rest ih =>
    intro f n hall
    unfold checkAmongLoop
    rw [hall c0 (List.mem_cons_self c0 rest)]
    simp only
    exact ih f n (fun c hc => hall c (List.mem_cons_of_mem c0 hc))

theorem checkAmongLoop_head_true (db : Db) (document_id : String) (c0 : String)
    (rest : List String) (f : Finder) (n : Nat)
    (h : getCachedIdPresenceInCollection f c0 document_id = Option.some true) :
    checkAmongLoop db document_id f (c0 :: rest) n
      = (Option.some c0, setNameOfCollectionMostRecentlyFoundIn f c0, n) := by
  unfold checkAmongLoop
  rw [h]

theorem optimizeQueueOrder_eq_filter (q names : List String)
    (hq : q.Nodup) (hn : names.Nodup) :
    optimizeQueueOrder q names
      = q.filter (fun c => decide (c ∈ names))
        ++ names.filter (fun c => decide (c ∉ q)) := by
  induction q with
  | nil => simp [optimizeQueueOrder]
  | cons c rest ih =>
    have hrest : rest.Nodup := hq.of_cons
    have hcrest : c ∉ rest := (List.nodup_cons.mp hq).1
    rw [optimizeQueueOrder_cons]
    by_cases hc : c ∈ names
    · rw [if_pos hc, ih hrest]
      have h1 : c ∉ rest.filter (fun x => decide (x ∈ names)) :=
        fun hmem => hcrest (List.mem_of_mem_filter hmem)
      rw [List.erase_append_right _ h1]
      have h2 : (names.filter (fun x => decide (x ∉ rest))).Nodup := hn.filter _
      rw [h2.erase_eq_filter c, List.filter_filter]
      have h3 : (c :: rest).filter (fun x => decide (x ∈ names))
          = c :: rest.filter (fun x => decide (x ∈ names)) := by
        simp [hc]
      rw [h3]
      simp only [List.cons_append, List.cons.injEq, true_and]
      congr 1
      apply List.filter_congr
      intro x _
      by_cases hx1 : x = c
      · subst hx1
        simp
      · by_cases hx2 : x ∈ rest <;> simp [hx1, hx2]
    · rw [if_neg hc, ih hrest]
      have h3 : (c :: rest).filter (fun x => decide (x ∈ names))
          = rest.filter (fun x => decide (x ∈ names)) := by
        simp [hc]
      rw [h3]
      congr 1
      apply List.filter_congr
      intro x hx
      have hx1 : ¬ x = c := fun hh => hc (hh ▸ hx)
      by_cases hx2 : x ∈ rest <;> simp [hx1, hx2]

/-- C4: with both caches empty, the finder returns the first collection, in
the given order, whose documents match the id filter, and `none` when no
listed collection matches (including the empty candidate list); the function
is total, so no exception can be raised. -/
theorem finder_no_cache_first_hit (f : Finder) (db : Db) (document_id : String)
    (collection_names : List String)
    (hq : f.cached_collection_names_where_recently_found = [])
    (hp : f.cached_id_presence_by_collection = []) :
    (checkWhetherDocumentHavingIdExistsAmongCollections f db document_id
        collection_names).1
      = collection_names.find? (fun c => findOneHasId db c document_id) := by
  unfold checkWhetherDocumentHavingIdExistsAmongCollections optimizeCollectionSearchOrder
  rw [hq]
  have hopt : optimizeQueueOrder [] collection_names = collection_names := rfl
  rw [hopt]
  exact checkAmongLoop_find db document_id collection_names f 0
    (cacheSound_of_empty f db document_id hp)

/-- Witness for C4, on the spec's two-collection example: `foo_set` holds
`a`, `b`, `c` and `bar_set` holds `d`, `e`, `f`. -/
theorem finder_no_cache_first_hit_witness :
    (Finder.init.cached_collection_names_where_recently_found = []
      ∧ Finder.init.cached_id_presence_by_collection = [])
    ∧ (checkWhetherDocumentHavingIdExistsAmongCollections Finder.init fooBarDb "a"
        ["foo_set", "bar_set"]).1 = Option.some "foo_set"
    ∧ (checkWhetherDocumentHavingIdExistsAmongCollections Finder.init fooBarDb "a"
        ["bar_set"]).1 = Option.none
    ∧ (checkWhetherDocumentHavingIdExistsAmongCollections Finder.init fooBarDb "a" []).1
        = Option.none
    ∧ (checkWhetherDocumentHavingIdExistsAmongCollections Finder.init fooBarDb "g"
        ["foo_set", "bar_set"]).1 = Option.none :=
  ⟨⟨rfl, rfl⟩,
   (finder_no_cache_first_hit Finder.init fooBarDb "a" ["foo_set", "bar_set"] rfl rfl).trans
     (by decide),
   (finder_no_cache_first_hit Finder.init fooBarDb "a" ["bar_set"] rfl rfl).trans (by decide),
   (finder_no_cache_first_hit Finder.init fooBarDb "a" [] rfl rfl).trans (by decide),
   (finder_no_cache_first_hit Finder.init fooBarDb "g" ["foo_set", "bar_set"] rfl rfl).trans
     (by decide)⟩

/-- C6: repeating an identical finder call immediately after a first call
returns the same result as the first call and issues zero additional store
queries, for every starting finder state, store, id and candidate list. -/
theorem finder_repeat_call_cached (f : Finder) (db : Db) (document_id : String)
    (collection_names : List String) :
    (checkWhetherDocumentHavingIdExistsAmongCollections
        (checkWhetherDocumentHavingIdExistsAmongCollections f db document_id
          collection_names).2.1 db document_id collection_names).1
      = (checkWhetherDocumentHavingIdExistsAmongCollections f db document_id
          collection_names).1
    ∧ (checkWhetherDocumentHavingIdExistsAmongCollections
        (checkWhetherDocumentHavingIdExistsAmongCollections f db document_id
          collection_names).2.1 db document_id collection_names).2.2 = 0 := by
  rcases hEq : checkAmongLoop db document_id f
    (optimizeCollectionSearchOrder f collection_names) 0 with ⟨res, f1, n1⟩
  have hfirst : checkWhetherDocumentHavingIdExistsAmongCollections f db document_id
      collection_names = (res, f1, n1) := hEq
  rw [hfirst]
  dsimp only
  cases res with
  | some c =>
    obtain ⟨hcached, hhead⟩ :=
      checkAmongLoop_found_state db document_id _ f 0 c f1 n1 hEq
    have hmem : c ∈ optimizeCollectionSearchOrder f collection_names :=
      checkAmongLoop_mem db document_id _ f 0 c f1 n1 hEq
    have hmemnames : c ∈ collection_names := mem_names_of_mem_optimize hmem
    cases hq1 : f1.cached_collection_names_where_recently_found with
    | nil =>
      rw [hq1] at hhead
      simp at hhead
    | cons q0 qt =>
      rw [hq1] at hhead
      simp only [List.head?_cons, Option.some.injEq] at hhead
      subst hhead
      have hopt : optimizeCollectionSearchOrder f1 collection_names
          = q0 :: (optimizeQueueOrder qt collection_names).erase q0 := by
        unfold optimizeCollectionSearchOrder
        rw [hq1, optimizeQueueOrder_cons, if_pos hmemnames]
      unfold checkWhetherDocumentHavingIdExistsAmongCollections
      rw [hopt, checkAmongLoop_head_true db document_id q0 _ f1 0 hcached]
      exact ⟨rfl, rfl⟩
  | none =>
    have hall := checkAmongLoop_none_all_false db document_id _ f 0 f1 n1 hEq
    have hallnames : ∀ c ∈ collection_names,
        getCachedIdPresenceInCollection f1 c document_id = Option.some false := by
      intro c hc
      exact hall c ((optimizeQueueOrder_perm _ _).mem_iff.mpr hc)
    unfold checkWhetherDocumentHavingIdExistsAmongCollections
    rw [checkAmongLoop_all_false db document_id
      (optimizeCollectionSearchOrder f1 collection_names) f1 0
      (fun c hc => hallnames c (mem_names_of_mem_optimize hc))]
    exact ⟨rfl, rfl⟩

/-- C7: for a duplicate-free recency-queue state and duplicate-free
candidate list, the optimized search order is a permutation of the
candidates (nothing dropped or added) in which the queue members occurring
among the candidates are moved to the front in most-recently-found-first
order, followed by the remaining candidates in their original relative
order. -/
theorem optimize_moves_recent_to_front (f : Finder) (names : List String)
    (hq : f.cached_collection_names_where_recently_found.Nodup) (hn : names.Nodup) :
    (optimizeCollectionSearchOrder f names).Perm names
    ∧ optimizeCollectionSearchOrder f names
        = f.cached_collection_names_where_recently_found.filter
            (fun c => decide (c ∈ names))
          ++ names.filter
            (fun c => decide (c ∉ f.cached_collection_names_where_recently_found)) :=
  ⟨optimizeQueueOrder_perm _ names,
   optimizeQueueOrder_eq_filter _ names hq hn⟩

/-- Witness for C7, on the spec's example: stored queue
`["a_set", "b_set", "c_set"]` (most recent first) and candidates
`["c_set", "d_set", "a_set"]` yield `["a_set", "c_set", "d_set"]`. -/
theorem optimize_moves_recent_to_front_witness :
    (["a_set", "b_set", "c_set"] : List String).Nodup
    ∧ (["c_set", "d_set", "a_set"] : List String).Nodup
    ∧ optimizeCollectionSearchOrder
        { cached_collection_names_where_recently_found := ["a_set", "b_set", "c_set"]
          cache_size := 2
          cached_id_presence_by_collection := [] }
        ["c_set", "d_set", "a_set"]
        = ["a_set", "c_set", "d_set"] :=
  ⟨by decide, by decide,
   ((optimize_moves_recent_to_front
      { cached_collection_names_where_recently_found := ["a_set", "b_set", "c_set"]
        cache_size := 2
        cached_id_presence_by_collection := [] }
      ["c_set", "d_set", "a_set"] (by decide) (by decide)).2).trans (by decide)⟩

theorem mem_dedupFirst (l : List String) (c : String) : c ∈ dedupFirst l ↔ c ∈ l := by
  induction l with
  | nil => simp [dedupFirst]
  | cons x xs ih =>
    simp only [dedupFirst, List.mem_cons, List.mem_filter]
    constructor
    · rintro (h | ⟨h1, _⟩)
      · exact Or.inl h
      · exact Or.inr (ih.mp h1)
    · rintro (h | h)
      · exact Or.inl h
      · by_cases hx : c = x
        · exact Or.inl hx
        · exact Or.inr ⟨ih.mpr h, by simp [hx]⟩

theorem mem_namesOfIneligibleCollections
    (collection_names target_collection_names : List String) (c : String) :
    c ∈ namesOfIneligibleCollections collection_names target_collection_names
      ↔ (c ∈ collection_names ∧ c ∉ target_collection_names) := by
  unfold namesOfIneligibleCollections
  rw [List.mem_filter, mem_dedupFirst]
  simp

theorem checkWhether_mem (f : Finder) (db : Db) (document_id : String)
    (collection_names : List String) (c : String)
    (h : (checkWhetherDocumentHavingIdExistsAmongCollections f db document_id
        collection_names).1 = Option.some c) :
    c ∈ collection_names := by
  unfold checkWhetherDocumentHavingIdExistsAmongCollections at h
  rcases hEq : checkAmongLoop db document_id f
    (optimizeCollectionSearchOrder f collection_names) 0 with ⟨res, f1, n1⟩
  rw [hEq] at h
  dsimp only at h
  subst h
  exact mem_names_of_mem_optimize
    (checkAmongLoop_mem db document_id _ f 0 c f1 n1 hEq)

/-- C5: when the finder fails to resolve a target id against the legal
target collections, the legacy scan loop emits a violation whose
`name_of_collection_containing_target` is, with the locate-misplaced option,
exactly the result of re-running the finder over the complement set (the
schema-described collections minus the legal target collections) — a set
characterized by the membership equivalence below — and is `None` without
the option; any collection name it carries is schema-described and
schema-disallowed. -/
theorem misplaced_search_over_complement (f : Finder) (db : Db)
    (collection_names target_collection_names : List String) (locate : Bool)
    (source_collection_name field_name : String)
    (source_document_object_id source_document_id : PyVal) (target_id : String)
    (h : (checkWhetherDocumentHavingIdExistsAmongCollections f db target_id
        target_collection_names).1 = Option.none) :
    ∃ v f2, refscanProcessTarget f db collection_names target_collection_names locate
        source_collection_name field_name source_document_object_id source_document_id
        target_id = (Option.some v, f2)
    ∧ (∀ c, c ∈ namesOfIneligibleCollections collection_names target_collection_names
          ↔ (c ∈ collection_names ∧ c ∉ target_collection_names))
    ∧ (locate = true →
        v.name_of_collection_containing_target
          = pyOfOption (checkWhetherDocumentHavingIdExistsAmongCollections
              (checkWhetherDocumentHavingIdExistsAmongCollections f db target_id
                target_collection_names).2.1 db target_id
              (namesOfIneligibleCollections collection_names target_collection_names)).1)
    ∧ (locate = false → v.name_of_collection_containing_target = PyVal.none)
    ∧ (∀ c, v.name_of_collection_containing_target = PyVal.str c →
        c ∈ collection_names ∧ c ∉ target_collection_names) := by
  unfold refscanProcessTarget
  simp only [h]
  cases locate with
  | true =>
    refine ⟨_, _, rfl, mem_namesOfIneligibleCollections collection_names
      target_collection_names, fun _ => rfl, fun hfalse => (by cases hfalse), ?_⟩
    intro c hc
    have hc2 : pyOfOption (checkWhetherDocumentHavingIdExistsAmongCollections
        (checkWhetherDocumentHavingIdExistsAmongCollections f db target_id
          target_collection_names).2.1 db target_id
        (namesOfIneligibleCollections collection_names target_collection_names)).1
        = PyVal.str c := hc
    rcases hres : (checkWhetherDocumentHavingIdExistsAmongCollections
        (checkWhetherDocumentHavingIdExistsAmongCollections f db target_id
          target_collection_names).2.1 db target_id
        (namesOfIneligibleCollections collection_names target_collection_names)).1 with
      _ | c'
    · rw [hres] at hc2
      simp [pyOfOption] at hc2
    · rw [hres] at hc2
      simp only [pyOfOption, PyVal.str.injEq] at hc2
      subst hc2
      exact (mem_namesOfIneligibleCollections collection_names
        target_collection_names c').mp (checkWhether_mem _ db target_id _ c' hres)
  | false =>
    exact ⟨_, _, rfl, mem_namesOfIneligibleCollections collection_names
      target_collection_names, fun htrue => (by cases htrue), fun _ => rfl,
      fun c hc => (by
        have hc2 : PyVal.none = PyVal.str c := hc
        cases hc2)⟩

/-- A database in which the identifier `x-1` exists only in
`testimonial_set`, a collection the schema does not allow the reference to
point at. -/
def dbMisplaced : Db :=
  [("company_set", []), ("testimonial_set", [[("id", PyVal.str "x-1")]])]

/-- Witness for C5: resolving `x-1` against the legal `company_set` fails,
and with the locate-misplaced option the emitted violation names the
disallowed `testimonial_set` where the document actually resides. -/
theorem misplaced_search_over_complement_witness :
    ((checkWhetherDocumentHavingIdExistsAmongCollections Finder.init dbMisplaced "x-1"
      ["company_set"]).1 = Option.none)
    ∧ (∃ v f2, refscanProcessTarget Finder.init dbMisplaced
        ["company_set", "employee_set", "testimonial_set"] ["company_set"] true
        "c" "fld" (PyVal.str "oid") (PyVal.str "sid") "x-1" = (Option.some v, f2)
      ∧ (∀ c, c ∈ namesOfIneligibleCollections
            ["company_set", "employee_set", "testimonial_set"] ["company_set"]
            ↔ (c ∈ ["company_set", "employee_set", "testimonial_set"]
               ∧ c ∉ ["company_set"]))
      ∧ (true = true →
          v.name_of_collection_containing_target
            = pyOfOption (checkWhetherDocumentHavingIdExistsAmongCollections
                (checkWhetherDocumentHavingIdExistsAmongCollections Finder.init dbMisplaced
                  "x-1" ["company_set"]).2.1 dbMisplaced "x-1"
                (namesOfIneligibleCollections
                  ["company_set", "employee_set", "testimonial_set"] ["company_set"])).1)
      ∧ (true = false → v.name_of_collection_containing_target = PyVal.none)
      ∧ (∀ c, v.name_of_collection_containing_target = PyVal.str c →
          c ∈ ["company_set", "employee_set", "testimonial_set"] ∧ c ∉ ["company_set"]))
    ∧ ((refscanProcessTarget Finder.init dbMisplaced
        ["company_set", "employee_set", "testimonial_set"] ["company_set"] true
        "c" "fld" (PyVal.str "oid") (PyVal.str "sid") "x-1").1.map
          (fun v => v.name_of_collection_containing_target)
        = Option.some (PyVal.str "testimonial_set")) :=
  ⟨by decide,
   misplaced_search_over_complement Finder.init dbMisplaced
     ["company_set", "employee_set", "testimonial_set"] ["company_set"] true
     "c" "fld" (PyVal.str "oid") (PyVal.str "sid") "x-1" (by decide),
   by decide⟩

/-- C8: when a document's declared type does not map to any schema class,
`scan_outgoing_references` raises a `ValueError` naming the document's id
and returns no violation list. -/
theorem scan_aborts_on_underivable_class (document : Doc) (schema_view : SchemaView)
    (references : ReferenceList) (finder : Finder) (db : Db)
    (source_collection_name : String) (locate : Bool) (oid : PyVal)
    (h1 : lookupKey document "_id" = Option.some oid)
    (h2 : deriveSchemaClassNameFromDocument schema_view document = Option.none) :
    scanOutgoingReferences document schema_view references finder db
      source_collection_name locate
      = Except.error
          ("ValueError: Failed to derive schema class name from document having id: "
           ++ pyStr ((lookupKey document "id").getD PyVal.none)) := by
  unfold scanOutgoingReferences
  rw [h1]
  dsimp only
  rw [h2]

/-- A document whose declared type tag matches no schema class. -/
def docUnknownType : Doc :=
  [("_id", PyVal.str "x"), ("type", PyVal.str "refscan:Alien")]

/-- Witness for C8: scanning a document with the unknown type tag
`refscan:Alien` raises the class-derivation error. -/
theorem scan_aborts_on_underivable_class_witness :
    (lookupKey docUnknownType "_id" = Option.some (PyVal.str "x"))
    ∧ (deriveSchemaClassNameFromDocument testSchemaView docUnknownType = Option.none)
    ∧ scanOutgoingReferences docUnknownType testSchemaView testReferences Finder.init
        testDb "company_set" false
        = Except.error
            "ValueError: Failed to derive schema class name from document having id: None" :=
  ⟨rfl, rfl,
   scan_aborts_on_underivable_class docUnknownType testSchemaView testReferences
     Finder.init testDb "company_set" false (PyVal.str "x") rfl rfl⟩

/-- C10: a document without an `id` key yields the empty descriptor list
from `identify_referring_documents`, with zero store queries and no raised
error, for every schema view, reference list and database. -/
theorem identify_referring_empty_without_id (document : Doc) (schema_view : SchemaView)
    (references : ReferenceList) (db : Db)
    (h : lookupKey document "id" = Option.none) :
    identifyReferringDocuments document schema_view references db
      = Except.ok ([], 0) := by
  unfold identifyReferringDocuments
  rw [h]

/-- Witness for C10: a typed document with no `id` key. -/
theorem identify_referring_empty_without_id_witness :
    (lookupKey [("type", PyVal.str "refscan:Company")] "id" = Option.none)
    ∧ identifyReferringDocuments [("type", PyVal.str "refscan:Company")] testSchemaView
        testReferences testDb = Except.ok ([], 0) :=
  ⟨rfl,
   identify_referring_empty_without_id [("type", PyVal.str "refscan:Company")]
     testSchemaView testReferences testDb rfl⟩

/-- C1 (counter-evidence): the `Violation` dataclass declares six fields and
`source_class_name` is not among them, so the `Violation(...)` call in
`scan_outgoing_references` — which passes `source_class_name` — raises a
`TypeError` on the test-suite scenario of one dangling `shareholders`
reference, and no violation list is returned. -/
theorem violation_lacks_source_class_name :
    ("source_class_name" ∉ violationFieldNames)
    ∧ violationFieldNames.length = 6
    ∧ scanOutgoingReferences docCompanyBad testSchemaView testReferences Finder.init testDb
        "company_set" false
        = Except.error "TypeError: unexpected keyword argument source_class_name" :=
  ⟨by decide, by decide, by rfl⟩

/-- A concrete violation record, as the working (legacy) scan would emit for
the dangling `e-99` reference. -/
def sampleViolation : Violation :=
  { source_collection_name := PyVal.str "company_set"
    source_field_name := PyVal.str "shareholders"
    source_document_object_id := PyVal.str "x"
    source_document_id := PyVal.str "c-99"
    target_id := PyVal.str "e-99"
    name_of_collection_containing_target := PyVal.none }

/-- C2 (counter-evidence): dumping one violation with
`include_name_of_collection_containing_target=False` writes a five-column
header but a six-value data row, because the data rows are the unfiltered
`astuple` of each violation. -/
theorem dump_tsv_rows_ragged_without_target_column :
    (dumpToTsvRows [sampleViolation] false).map List.length = [5, 6]
    ∧ (dumpToTsvRows [sampleViolation] true).map List.length = [6, 6] :=
  ⟨by decide, by decide⟩

/-- C3 (counter-evidence): scanning a database that lacks the declared
`company_set` collection emits no "Database lacks collection" warning and
still creates a (empty) violation-list entry for the absent collection,
because `get_collection` never returns `None`; the collection that does
exist is scanned as well. -/
theorem scan_does_not_skip_absent_collection :
    (lookupKey dbAbsent "company_set" = Option.none)
    ∧ scan dbAbsent testSchemaView refsAbsent [] false
        = Except.ok ([("company_set", []), ("employee_set", [])], []) :=
  ⟨rfl, by rfl⟩

/-- C9 (counter-evidence): for a testimonial document lacking an `id` field
with a dangling `company` reference, the legacy scan records the violation
with `source_document_id = None` (not the empty string), while the current
engine's `scan_outgoing_references` — which would normalize the id to the
empty string — raises a `TypeError` before any violation is recorded. -/
theorem violation_none_source_document_id_for_missing_id :
    (lookupKey docTestimonialBad "id" = Option.none)
    ∧ ((refscanProcessDocument docTestimonialBad testSchemaView testReferences Finder.init
        testDb "testimonial_set" false).map
        (fun p => p.1.map (fun v => v.source_document_id)) = Except.ok [PyVal.none])
    ∧ (PyVal.none ≠ PyVal.str "")
    ∧ scanOutgoingReferences docTestimonialBad testSchemaView testReferences Finder.init
        testDb "testimonial_set" false
        = Except.error "TypeError: unexpected keyword argument source_class_name" :=
  ⟨rfl, by rfl, by decide, by rfl⟩

end Refscan
